import Mathlib

/-!
Verification of the weather-forecast extractor (`src/main.py`).

The Python source is shallowly embedded below:
  * the XML document (already parsed by `ET.parse`) is the `Bulletin` tree,
  * `datetime.strptime` with format `%Y-%m-%dT%H:%M:%S%z` is `parseTimestamp`
    (fixed-width two-digit fields; the single-digit field forms that
    Python's regex also tolerates, and fractional-second offsets, are not
    modelled — no input in this development uses them),
  * exceptions are `Option`/`Except` errors,
  * the clock read `datetime.now(...)` is an explicit `now : Int` argument,
  * file writes are explicit state passing on the output file's content.
-/

namespace Forecast

/-- `<text>` element under a forecast-period: `type` attribute
(`attrib.get("type")`, absent ⇒ `none`) and its text node
(`t.text`, absent ⇒ `none`). -/
structure TextItem where
  ttype : Option String
  text : Option String
deriving DecidableEq, Repr

/-- `<forecast-period>` element: the `start-time-local` attribute and the
child `<text>` elements in document order. -/
structure ForecastPeriod where
  startTimeLocal : Option String
  texts : List TextItem
deriving DecidableEq, Repr

/-- `<area>` element: the `description` attribute and the child
`<forecast-period>` elements in document order. -/
structure Area where
  description : Option String
  periods : List ForecastPeriod
deriving DecidableEq, Repr

/-- The parsed bulletin.  `issueTimeLocal` is the result of
`root.find("amoc")` + `findtext("issue-time-local")` (`none` when either
node is missing); `warningSummary` is the first `warning-summary` element
anywhere in the document (`some t` with `t` its optional text node);
`areas` is `root.findall(".//area")` in document order. -/
structure Bulletin where
  issueTimeLocal : Option String
  warningSummary : Option (Option String)
  areas : List Area
deriving DecidableEq, Repr

/-- Constant `LOCATION` from the source. -/
def LOCATION : String := "Far North West Coast: Sandy Cape to Stanley"

/-- The ASCII whitespace characters `str.strip()` removes (the Unicode
space characters Python also strips are not modelled; no input here uses
them). -/
def pySpace (c : Char) : Bool :=
  c == ' ' || c == '\t' || c == '\n' || c == '\r' || c == '\x0b' || c == '\x0c'

/-- Python `str.strip()`: drop leading and trailing whitespace. -/
def pyStrip (s : String) : String :=
  ((s.toList.dropWhile pySpace).reverse.dropWhile pySpace).reverse.asString

/-- Python `str.replace("_", " ")` for the single-character pattern the
source uses. -/
def underscoreToSpace (s : String) : String :=
  (s.toList.map (fun c => if c = '_' then ' ' else c)).asString

/-- The aware datetime produced by `strptime %Y-%m-%dT%H:%M:%S%z`:
broken-down local fields plus the parsed UTC offset. -/
structure DateTime where
  year : Nat
  month : Nat
  day : Nat
  hour : Nat
  minute : Nat
  second : Nat
  offNeg : Bool
  offHour : Nat
  offMinute : Nat
  offSecond : Nat
deriving DecidableEq, Repr

/-- Numeric value of a decimal digit character. -/
def digit (c : Char) : Nat := c.toNat - 48

/-- Two-digit decimal value. -/
def d2 (a b : Char) : Nat := 10 * digit a + digit b

/-- Gregorian leap year, as `calendar.isleap` / `datetime` use it. -/
def isLeap (y : Nat) : Bool := (y % 4 == 0 && y % 100 != 0) || y % 400 == 0

/-- Days in a month, used by the `datetime` constructor's day validation. -/
def daysInMonth (y m : Nat) : Nat :=
  if m = 2 then (if isLeap y then 29 else 28)
  else if m = 4 ∨ m = 6 ∨ m = 9 ∨ m = 11 then 30
  else 31

/-- Consume two decimal digits. -/
def take2 : List Char → Option (Nat × List Char)
  | a :: b :: rest => if a.isDigit && b.isDigit then some (d2 a b, rest) else none
  | _ => none

/-- Consume an optional colon (the `:?` in `%z`'s pattern). -/
def skipColon : List Char → List Char
  | ':' :: rest => rest
  | l => l

/-- Digits of a `%z` offset after the sign: `HH`, optional colon, `MM`,
then optionally an optional colon and `SS`. -/
def parseOffsetDigits (cs : List Char) : Option (Nat × Nat × Nat) :=
  match take2 cs with
  | none => none
  | some (hh, r1) =>
    match take2 (skipColon r1) with
    | none => none
    | some (mm, r3) =>
      match r3 with
      | [] => some (hh, mm, 0)
      | _ =>
        match take2 (skipColon r3) with
        | none => none
        | some (ss, r5) => if r5.isEmpty then some (hh, mm, ss) else none

/-- The whole `%z` field: `Z`, or a sign followed by offset digits; the
resulting offset must be strictly less than 24 hours (`datetime.timezone`
bound, otherwise `strptime` raises). Result: (negative?, H, M, S). -/
def parseOffset (cs : List Char) : Option (Bool × Nat × Nat × Nat) :=
  match cs with
  | ['Z'] => some (false, 0, 0, 0)
  | '+' :: rest =>
    (parseOffsetDigits rest).bind fun x =>
      if x.1 * 3600 + x.2.1 * 60 + x.2.2 < 86400 then some (false, x.1, x.2.1, x.2.2) else none
  | '-' :: rest =>
    (parseOffsetDigits rest).bind fun x =>
      if x.1 * 3600 + x.2.1 * 60 + x.2.2 < 86400 then some (true, x.1, x.2.1, x.2.2) else none
  | _ => none

/-- `datetime.strptime(s, "%Y-%m-%dT%H:%M:%S%z")`: `none` models the
`ValueError` raised on any mismatch or out-of-range field. -/
def parseTimestamp (s : String) : Option DateTime :=
  match s.toList with
  | y1 :: y2 :: y3 :: y4 :: '-' :: m1 :: m2 :: '-' :: a1 :: a2 :: 'T' ::
      h1 :: h2 :: ':' :: n1 :: n2 :: ':' :: s1 :: s2 :: rest =>
    if y1.isDigit && y2.isDigit && y3.isDigit && y4.isDigit &&
       m1.isDigit && m2.isDigit && a1.isDigit && a2.isDigit &&
       h1.isDigit && h2.isDigit && n1.isDigit && n2.isDigit &&
       s1.isDigit && s2.isDigit then
      let year := 1000 * digit y1 + 100 * digit y2 + 10 * digit y3 + digit y4
      let month := d2 m1 m2
      let day := d2 a1 a2
      let hour := d2 h1 h2
      let minute := d2 n1 n2
      let second := d2 s1 s2
      if 1 ≤ month ∧ month ≤ 12 ∧ 1 ≤ day ∧ day ≤ daysInMonth year month ∧
         hour ≤ 23 ∧ minute ≤ 59 ∧ second ≤ 59 then
        match parseOffset rest with
        | some (neg, oh, om, os) =>
          some ⟨year, month, day, hour, minute, second, neg, oh, om, os⟩
        | none => none
      else none
    else none
  | _ => none

/-- Weekday names indexed so that index `rataDie y m d % 7` is the day of
week (0001-01-01 proleptic Gregorian is a Monday, Rata Die 1). -/
def weekdayNames : List String :=
  ["Sunday", "Monday", "Tuesday", "Wednesday", "Thursday", "Friday", "Saturday"]

/-- Cumulative days before a month (non-leap), with leap correction. -/
def daysBeforeMonth (y m : Nat) : Nat :=
  ([0, 31, 59, 90, 120, 151, 181, 212, 243, 273, 304, 334].getD (m - 1) 0) +
    (if 2 < m ∧ isLeap y then 1 else 0)

/-- Rata Die day number of a proleptic Gregorian date. -/
def rataDie (y m d : Nat) : Nat :=
  365 * (y - 1) + (y - 1) / 4 - (y - 1) / 100 + (y - 1) / 400 +
    daysBeforeMonth y m + d

/-- `dt.strftime("%A")`: the local date's weekday name. -/
def weekdayName (y m d : Nat) : String := weekdayNames.getD (rataDie y m d % 7) ""

/-- Part-of-day bucket from `get_issue_descriptor`'s if/elif chain. -/
def partOfDay (hour : Nat) : String :=
  if 5 ≤ hour ∧ hour < 12 then "morning"
  else if 12 ≤ hour ∧ hour < 17 then "afternoon"
  else if 17 ≤ hour ∧ hour < 21 then "evening"
  else "night"

/-- Two-digit zero-padded minute, as `%M` renders. -/
def two (n : Nat) : String := if n < 10 then "0" ++ toString n else toString n

/-- `dt.strftime("%-I:%M%p").lower()`: 12-hour clock without leading zero,
minutes zero-padded, lowercase am/pm marker. -/
def fmtTime12 (hour minute : Nat) : String :=
  (toString (if hour % 12 = 0 then 12 else hour % 12)) ++ ":" ++ two minute ++
    (if hour < 12 then "am" else "pm")

/-- The sentence `get_issue_descriptor` formats from the parsed datetime. -/
def issueSentence (dt : DateTime) : String :=
  "Issued " ++ weekdayName dt.year dt.month dt.day ++ " " ++ partOfDay dt.hour ++
    " at " ++ fmtTime12 dt.hour dt.minute ++ "."

/-- `issue_time_str[-3] == ":"` colon strip.  `none` models the
`IndexError` Python raises when the string has fewer than 3 characters. -/
def stripOffsetColon (s : String) : Option String :=
  match s.toList.reverse with
  | a :: b :: ':' :: rest => some ((a :: b :: rest).reverse.asString)
  | _ :: _ :: _ :: _ => some s
  | _ => none

/-- Timestamp parsing inside `get_issue_descriptor`: colon strip followed
by `strptime`. -/
def issueDT (s : String) : Option DateTime := (stripOffsetColon s).bind parseTimestamp

/-- `get_issue_descriptor`; `none` models an escaping exception
(`IndexError` on the negative index or `ValueError` from `strptime`). -/
def getIssueDescriptor (s : String) : Option String := (issueDT s).map issueSentence

end Forecast

namespace Forecast

/-- Error kinds for exceptions crossing function boundaries in the
pipeline: `ftplib` failures, `ET.ParseError`, and the timestamp
exceptions (`ValueError` / `IndexError`) escaping `get_issue_descriptor`. -/
inductive PErr where
  | transfer
  | parse
  | timestamp
deriving DecidableEq, Repr

/-- The issue-time block of `parse_forecast` (lines 77-85): when
`issue-time-local` is present and truthy, render the descriptor (an
exception escaping `get_issue_descriptor` propagates), contributing the
descriptor line and a blank line. -/
def issueLines (b : Bulletin) : Except PErr (List String) :=
  match b.issueTimeLocal with
  | some s =>
    if s = "" then Except.ok []
    else
      match getIssueDescriptor s with
      | some d => Except.ok [d, ""]
      | none => Except.error PErr.timestamp
  | none => Except.ok []

/-- Loop body of the synoptic-text scan: a `text` element of type
`synoptic_situation` with non-empty stripped content appends the
three-line block. -/
def synopStep (acc : List String) (t : TextItem) : List String :=
  if t.ttype = some "synoptic_situation" then
    if pyStrip (t.text.getD "") = "" then acc
    else acc ++ ["Weather Situation:", pyStrip (t.text.getD ""), ""]
  else acc

/-- Scan of the first forecast-period's `text` children (lines 92-99). -/
def synopTexts (ts : List TextItem) : List String := ts.foldl synopStep []

/-- Synoptic block of `parse_forecast` (lines 87-100): first area whose
`description` attribute equals `"Tasmania"` (no default, no strip), its
first `forecast-period` child, scanned by `synopTexts`. -/
def synopticLines (b : Bulletin) : List String :=
  match b.areas.find? (fun a => a.description == some "Tasmania") with
  | none => []
  | some area =>
    match area.periods.head? with
    | none => []
    | some fp => synopTexts fp.texts

/-- Warning block of `parse_forecast` (lines 102-108): first
`warning-summary` element with truthy text whose strip is non-empty. -/
def warningLines (b : Bulletin) : List String :=
  match b.warningSummary with
  | some (some w) =>
    if w = "" then []
    else if pyStrip w = "" then []
    else ["Warning Summary: " ++ pyStrip w ++ ".", ""]
  | _ => []

/-- Loop body rendering one `text` child of the chosen period
(lines 153-160): skip when the stripped content is empty, else emit
`label: value` with underscores in the type attribute turned to spaces. -/
def renderStep (acc : List String) (t : TextItem) : List String :=
  if pyStrip (t.text.getD "") = "" then acc
  else acc ++ [underscoreToSpace (t.ttype.getD "") ++ ": " ++ pyStrip (t.text.getD "")]

/-- Rendering of the chosen period's `text` children in document order. -/
def renderTexts (ts : List TextItem) : List String := ts.foldl renderStep []

/-- The period loop of `parse_forecast` (lines 118-163) over the target
area's `forecast-period` list.  For each period in order: if its
`start-time-local` does not parse, `continue`; otherwise the inner block
re-parses `forecast_periods[0]`'s `start-time-local` and either returns
`None` (inner parse failure) or renders period 0 and returns.
Result: `none` = loop exhausted (function falls through to line 168),
`some none` = `return None` at line 147, `some (some p)` = period `p`
(always the head) is rendered and returned. -/
def selectLoop (allPs : List ForecastPeriod) : List ForecastPeriod → Option (Option ForecastPeriod)
  | [] => none
  | p :: rest =>
    match parseTimestamp (pyStrip (p.startTimeLocal.getD "")) with
    | none => selectLoop allPs rest
    | some _ =>
      match allPs with
      | [] => selectLoop allPs rest
      | first :: _ =>
        match parseTimestamp (pyStrip (first.startTimeLocal.getD "")) with
        | none => some none
        | some _ => some (some first)

/-- `parse_forecast` on an already-parsed bulletin.  The `now` argument is
the clock sample `datetime.now(timezone.utc).astimezone()` taken at line
74; the source never reads it again.  `Except.error` models an exception
escaping the function, `Except.ok none` its `return None` paths, and
`Except.ok (some s)` the assembled forecast string. -/
def parseForecast (_now : Int) (b : Bulletin) : Except PErr (Option String) :=
  match issueLines b with
  | Except.error e => Except.error e
  | Except.ok l0 =>
    let l2 := (l0 ++ synopticLines b) ++ warningLines b
    match b.areas.find? (fun a => pyStrip (a.description.getD "") == LOCATION) with
    | none => Except.ok none
    | some area =>
      match selectLoop area.periods area.periods with
      | some (some first) =>
        Except.ok (some (String.intercalate "\n" (l2 ++ renderTexts first.texts)))
      | some none => Except.ok none
      | none => Except.ok none

/-- `debug_list_all_areas`: the description printed for each `area`
element, accumulated in document order by the print loop. -/
def debugListAllAreas (b : Bulletin) : List String :=
  b.areas.foldl (fun acc a => acc ++ [a.description.getD ""]) []

/-- `save_forecast_to_txt` as a transformer of the output file's content:
a truthy forecast string overwrites the file, otherwise the file is left
untouched. -/
def saveForecastToTxt (forecast : Option String) (file : Option String) : Option String :=
  match forecast with
  | some t => if t = "" then file else some t
  | none => file

/-- The body of `main`'s `try` block: fetch, parse the XML, extract, save.
`fetch` is the outcome of `download_file_from_ftp`, `parsed` the outcome
of `ET.parse` on the downloaded bytes; either may raise. -/
def runPipeline (fetch : Except PErr Unit) (parsed : Except PErr Bulletin)
    (now : Int) (file : Option String) : Except PErr (Option String) :=
  match fetch with
  | Except.error e => Except.error e
  | Except.ok _ =>
    match parsed with
    | Except.error e => Except.error e
    | Except.ok b =>
      match parseForecast now b with
      | Except.error e => Except.error e
      | Except.ok r => Except.ok (saveForecastToTxt r file)

/-- `main`: the `try`/`except Exception` wrapper around the pipeline; any
exception is caught and logged, leaving the output file unchanged. The
result is the output file's content after the run. -/
def mainRun (fetch : Except PErr Unit) (parsed : Except PErr Bulletin)
    (now : Int) (file : Option String) : Option String :=
  match runPipeline fetch parsed now file with
  | Except.ok f => f
  | Except.error _ => file

end Forecast

namespace Forecast

/-- Spec-side definition of the part-of-day bucket, written from the
spec's sentence "05:00–11:59 → morning, 12:00–16:59 → afternoon,
17:00–20:59 → evening, else night", for comparison with `partOfDay`. -/
def partOfDaySpec (hour : Nat) : String :=
  if 5 ≤ hour ∧ hour ≤ 11 then "morning"
  else if 12 ≤ hour ∧ hour ≤ 16 then "afternoon"
  else if 17 ≤ hour ∧ hour ≤ 20 then "evening"
  else "night"

/-- Target area with periods starting one hour before, one hour after and
five hours after a nominal current time of 2024-05-01 10:00+10:00; each
period carries a distinguishing text item. -/
def bulletinC1 : Bulletin :=
  ⟨none, none, [⟨some LOCATION,
    [⟨some "2024-05-01T09:00:00+10:00", [⟨some "forecast", some "PAST-PERIOD-TEXT"⟩]⟩,
     ⟨some "2024-05-01T11:00:00+10:00", [⟨some "forecast", some "FIRST-FUTURE-TEXT"⟩]⟩,
     ⟨some "2024-05-01T15:00:00+10:00", [⟨some "forecast", some "LATER-FUTURE-TEXT"⟩]⟩]⟩]⟩

/-- Target area whose first period has a malformed `start-time-local`
(`"2024-05-01T10:00"`, missing seconds and offset) and whose second
period is valid and carries renderable text. -/
def bulletinC2 : Bulletin :=
  ⟨none, none, [⟨some LOCATION,
    [⟨some "2024-05-01T10:00", [⟨some "forecast", some "MALFORMED-PERIOD-TEXT"⟩]⟩,
     ⟨some "2024-05-01T11:00:00+10:00", [⟨some "forecast", some "VALID-PERIOD-TEXT"⟩]⟩]⟩]⟩

/-- Bulletin with a present but unparsable `issue-time-local` and an
otherwise fully renderable target area. -/
def bulletinC3 : Bulletin :=
  ⟨some "2024-05-01T10:00", none, [⟨some LOCATION,
    [⟨some "2024-05-01T11:00:00+10:00", [⟨some "forecast", some "GOOD-TEXT"⟩]⟩]⟩]⟩

/-- Bulletin with a short unparsable `issue-time-local` and no areas. -/
def bulletinC3w : Bulletin := ⟨some "xxx", none, []⟩

/-- Bulletin with an unparsable `issue-time-local` and no area matching
`LOCATION`. -/
def bulletinC7cx : Bulletin := ⟨some "bad", none, [⟨some "Other area", []⟩]⟩

/-- Bulletin with no issue time and no area matching `LOCATION`. -/
def bulletinC7w : Bulletin := ⟨none, none, [⟨some "Other area", []⟩]⟩

/-- A text item whose content is whitespace-only. -/
def blankItem : TextItem := ⟨some "forecast", some "   "⟩

/-- A text item with non-empty content. -/
def keptItem : TextItem := ⟨some "forecast", some "A"⟩

/-- An empty parsed bulletin. -/
def emptyBulletin : Bulletin := ⟨none, none, []⟩

end Forecast

namespace Forecast

theorem partOfDay_eq_partOfDaySpec (h : Nat) : partOfDay h = partOfDaySpec h := by
  unfold partOfDay partOfDaySpec
  split_ifs <;> first | rfl | omega

theorem debug_foldl (l : List Area) (acc : List String) :
    l.foldl (fun acc a => acc ++ [a.description.getD ""]) acc =
      acc ++ l.map (fun a => a.description.getD "") := by
  induction l generalizing acc with
  | nil => simp
  | cons a l ih => simp [List.foldl_cons, ih]

/-- C1: on a target area whose periods start before and after the nominal
current time, `parse_forecast` renders period 0 (the past period) for
every clock value — not the first strictly-future period the time-based
policy prescribes. -/
theorem c1_renders_period_zero_for_any_clock :
    ∀ now : Int, parseForecast now bulletinC1 = Except.ok (some "forecast: PAST-PERIOD-TEXT") :=
  fun _ => rfl

/-- C2: when the target area's first period has a malformed
`start-time-local` and a later period is valid and renderable,
`parse_forecast` returns `None` for every clock value: the malformed
leading timestamp aborts the extraction instead of being skipped
non-fatally. -/
theorem c2_malformed_head_aborts_extraction :
    ∀ now : Int, parseForecast now bulletinC2 = Except.ok none :=
  fun _ => rfl

/-- C3 counterexample: a present but unparsable `issue-time-local` makes
`parse_forecast` raise (error result) instead of omitting the descriptor
line and continuing; the renderable target area is never reached. -/
theorem c3_counterexample_issue_time_fatal :
    parseForecast 0 bulletinC3 = Except.error PErr.timestamp := rfl

/-- C3 amended: whenever `issue-time-local` is present, non-empty and
`get_issue_descriptor` fails on it, `parse_forecast` propagates the
timestamp exception, aborting the extraction pass regardless of the rest
of the document. -/
theorem c3_unparsable_issue_time_raises (now : Int) (b : Bulletin) (s : String)
    (hs : b.issueTimeLocal = some s) (hne : s ≠ "") (hbad : getIssueDescriptor s = none) :
    parseForecast now b = Except.error PErr.timestamp := by
  have h1 : issueLines b = Except.error PErr.timestamp := by
    unfold issueLines
    rw [hs]
    simp [hne, hbad]
  unfold parseForecast
  rw [h1]

theorem c3_unparsable_issue_time_raises_witness :
    parseForecast 0 bulletinC3w = Except.error PErr.timestamp :=
  c3_unparsable_issue_time_raises 0 bulletinC3w "xxx" rfl (by decide) rfl

/-- C4: `get_issue_descriptor` on `"2024-05-01T06:30:00+10:00"` yields
exactly `"Issued Wednesday morning at 6:30am."`. -/
theorem c4_issue_descriptor_example :
    getIssueDescriptor "2024-05-01T06:30:00+10:00" =
      some "Issued Wednesday morning at 6:30am." := rfl

/-- C5: for every issue timestamp the descriptor renders, the part-of-day
word is exactly the spec's hour bucket (5-11 morning, 12-16 afternoon,
17-20 evening, else night) applied to the parsed local hour. -/
theorem c5_part_of_day_bucket (s : String) (dt : DateTime) (h : issueDT s = some dt) :
    getIssueDescriptor s =
      some ("Issued " ++ weekdayName dt.year dt.month dt.day ++ " " ++
        partOfDaySpec dt.hour ++ " at " ++ fmtTime12 dt.hour dt.minute ++ ".") := by
  unfold getIssueDescriptor
  rw [h]
  simp [issueSentence, partOfDay_eq_partOfDaySpec]

theorem c5_part_of_day_bucket_witness :
    getIssueDescriptor "2024-05-01T06:30:00+10:00" =
      some ("Issued " ++ weekdayName 2024 5 1 ++ " " ++ partOfDaySpec 6 ++ " at " ++
        fmtTime12 6 30 ++ ".") :=
  c5_part_of_day_bucket _ ⟨2024, 5, 1, 6, 30, 0, false, 10, 0, 0⟩ rfl

/-- C6: a text item whose content is absent, empty or whitespace-only
contributes no line, both in the chosen period's rendering and in the
synoptic-situation scan. -/
theorem c6_blank_text_items_render_nothing (pre post : List TextItem) (t : TextItem)
    (h : pyStrip (t.text.getD "") = "") :
    renderTexts (pre ++ t :: post) = renderTexts (pre ++ post) ∧
    synopTexts (pre ++ t :: post) = synopTexts (pre ++ post) := by
  have hr : ∀ acc, renderStep acc t = acc := by intro acc; simp [renderStep, h]
  have hsy : ∀ acc, synopStep acc t = acc := by intro acc; simp [synopStep, h]
  constructor <;> simp [renderTexts, synopTexts, List.foldl_append, hr, hsy]

theorem c6_blank_text_items_render_nothing_witness :
    renderTexts ([keptItem] ++ blankItem :: []) = renderTexts ([keptItem] ++ []) ∧
    synopTexts ([keptItem] ++ blankItem :: []) = synopTexts ([keptItem] ++ []) :=
  c6_blank_text_items_render_nothing [keptItem] [] blankItem (by decide)

/-- C7 amended: for every bulletin with no area whose stripped
description equals `LOCATION`, and whose issue time (when present and
non-empty) renders, `parse_forecast` returns `None` and the writer leaves
the output file's prior content untouched. -/
theorem c7_no_matching_area_yields_none (now : Int) (b : Bulletin) (file : Option String)
    (hIssue : ∀ s, b.issueTimeLocal = some s → s ≠ "" → (getIssueDescriptor s).isSome = true)
    (hNo : ∀ a ∈ b.areas, pyStrip (a.description.getD "") ≠ LOCATION) :
    parseForecast now b = Except.ok none ∧ saveForecastToTxt none file = file := by
  refine ⟨?_, rfl⟩
  have hIss : ∃ l, issueLines b = Except.ok l := by
    unfold issueLines
    cases hb : b.issueTimeLocal with
    | none => exact ⟨[], rfl⟩
    | some s =>
      by_cases hse : s = ""
      · exact ⟨[], by simp [hse]⟩
      · have hd := hIssue s hb hse
        cases hg : getIssueDescriptor s with
        | none => rw [hg] at hd; simp at hd
        | some d => exact ⟨[d, ""], by simp [hse, hg]⟩
  obtain ⟨l, hl⟩ := hIss
  have hf : b.areas.find? (fun a => pyStrip (a.description.getD "") == LOCATION) = none := by
    rw [List.find?_eq_none]
    intro a ha
    simpa using hNo a ha
  unfold parseForecast
  rw [hl, hf]

theorem c7_no_matching_area_yields_none_witness :
    parseForecast 0 bulletinC7w = Except.ok none ∧
    saveForecastToTxt none (some "OLD CONTENT") = some "OLD CONTENT" :=
  c7_no_matching_area_yields_none 0 bulletinC7w (some "OLD CONTENT")
    (by intro s hs hne; exact Option.noConfusion hs)
    (by decide)

/-- C7 counterexample: a document with no matching area but an unparsable
issue time makes `parse_forecast` raise instead of returning `None`, so
the claim's universal statement fails as written (the file is still
untouched, but the "returns None" part is false). -/
theorem c7_counterexample_error_not_none :
    parseForecast 0 bulletinC7cx = Except.error PErr.timestamp := rfl

/-- C8: whenever the fetch-parse-extract-save pipeline raises any
exception, top-level `main` swallows it: the run ends cleanly and the
output file keeps its prior content. -/
theorem c8_top_level_swallows_exceptions (fetch : Except PErr Unit)
    (parsed : Except PErr Bulletin) (now : Int) (file : Option String) (e : PErr)
    (h : runPipeline fetch parsed now file = Except.error e) :
    mainRun fetch parsed now file = file := by
  unfold mainRun
  rw [h]

theorem c8_top_level_swallows_exceptions_witness :
    mainRun (Except.error PErr.transfer) (Except.ok emptyBulletin) 0 (some "OLD") = some "OLD" :=
  c8_top_level_swallows_exceptions (Except.error PErr.transfer) (Except.ok emptyBulletin) 0
    (some "OLD") PErr.transfer rfl

/-- C9: the debug lister outputs exactly the description of every area,
in document order, duplicates preserved and nothing reordered. -/
theorem c9_debug_lister_document_order (b : Bulletin) :
    debugListAllAreas b = b.areas.map (fun a => a.description.getD "") := by
  unfold debugListAllAreas
  simp [debug_foldl]

/-- C10: `parse_forecast` reads the clock but never consults it: for any
two clock values the result on a fixed bulletin is identical. -/
theorem c10_result_independent_of_clock (b : Bulletin) (t1 t2 : Int) :
    parseForecast t1 b = parseForecast t2 b := rfl

end Forecast
